import Mathlib

/-!
Verification of the Battlesnake decision engine in `src/logic.rs`.

The Rust source is shallowly embedded: `i32` values become `Int` (the
engine's boards are tiny, no arithmetic in the claims approaches the
32-bit range; the `i32::MIN`/`i32::MAX` sentinels are kept as explicit
constants), `Vec` becomes `List`, and every Rust expression that can
panic (slice indexing, `Option::unwrap`, `choose` on an empty slice)
is modelled in the `Option` monad, `none` standing for a panic.
-/

/-- Modelled from the spec: the Coordinate data model (§3).  The struct
itself lives in the crate root (absent from `src/`); its fields `x`, `y`
are `i32`, fully determined by their use in `logic.rs`. -/
structure Coord where
  x : Int
  y : Int
deriving DecidableEq

/-- Modelled from the spec: the Agent data model (§3).  The `Battlesnake`
struct lives in the crate root; `logic.rs` uses exactly the fields
`id`, `health`, `body` and `length`. -/
structure Battlesnake where
  id : String
  health : Int
  body : List Coord
  length : Int
deriving DecidableEq

/-- Modelled from the spec: the Board data model (§3).  The `Board`
struct lives in the crate root; `logic.rs` uses `width`, `height`,
`food`, `snakes` and (only for printing) `hazards`. -/
structure Board where
  width : Int
  height : Int
  food : List Coord
  snakes : List Battlesnake
  hazards : List Coord
deriving DecidableEq

/-- The constant `i32::MAX`. -/
def i32Max : Int := 2147483647

/-- The constant `i32::MIN`. -/
def i32Min : Int := -2147483648

/-- Rust `i32::abs` (the boards never hold `i32::MIN`, so two's-complement
wrap-around of `abs` is irrelevant). -/
def iabs (n : Int) : Int := if n < 0 then -n else n

/-- The test `segment.x == new_x && segment.y == new_y`, the coordinate test used
throughout `logic.rs`. -/
def coordEq (c : Coord) (x y : Int) : Bool := c.x == x && c.y == y

/-- The direction match of `is_move_safe` (lines 60–66): unit vector of a
direction string, `none` for an invalid direction (there `is_move_safe`
returns `false`). -/
def moveDelta (direction : String) : Option (Int × Int) :=
  if direction == "up" then some (0, 1)
  else if direction == "down" then some (0, -1)
  else if direction == "left" then some (-1, 0)
  else if direction == "right" then some (1, 0)
  else none

/-- The direction match of `simulate_move` (lines 155–161): an invalid
direction yields the zero vector there. -/
def simDelta (move_dir : String) : Int × Int :=
  (moveDelta move_dir).getD (0, 0)

/-- Rust `Iterator::position`: index of the first element satisfying the
predicate. -/
def positionIdx (p : α → Bool) : List α → Option Nat
  | [] => none
  | a :: as => if p a then some 0 else (positionIdx p as).map (· + 1)

/-- The last loop of `is_move_safe` (lines 135–149): for every rival
snake, test whether its head sits on one of the cells surrounding the
candidate with length at least ours.  The Rust closure indexes
`snake.body[0]`, which panics (`none`) when a rival body is empty and
the surrounding list is nonempty (the closure is only evaluated once per
surrounding cell). -/
def headThreatLoop (you : Battlesnake) (surrounding : List (Int × Int)) :
    List Battlesnake → Option Bool
  | [] => some true
  | s :: rest =>
    if s.id != you.id then
      match surrounding with
      | [] => headThreatLoop you surrounding rest
      | _ :: _ =>
        match s.body.head? with
        | none => none
        | some h =>
          if surrounding.any fun p =>
              h.x == p.1 && h.y == p.2 && decide (you.body.length ≤ s.body.length) then
            some false
          else headThreatLoop you surrounding rest
    else headThreatLoop you surrounding rest

/-- The function `is_move_safe` (lines 54–152).  `none` models the panic of
`you.body.first().unwrap()` on an empty body (or a rival `body[0]` panic
in the final loop). -/
def is_move_safe (board : Board) (you : Battlesnake) (direction : String) : Option Bool := do
  let head ← you.body.head?
  match moveDelta direction with
  | none => some false
  | some (dx, dy) =>
    let new_x := head.x + dx
    let new_y := head.y + dy
    if decide (new_x < 0) || decide (board.width ≤ new_x) ||
        decide (new_y < 0) || decide (board.height ≤ new_y) then
      some false
    else if you.body.any fun seg => coordEq seg new_x new_y then
      some false
    else if board.snakes.any fun s => s.body.any fun seg => coordEq seg new_x new_y then
      some false
    else if board.snakes.any fun s =>
        s.id != you.id &&
        (s.body.head?.elim false fun h => coordEq h new_x new_y) &&
        decide (you.body.length ≤ s.body.length) then
      some false
    else
      let my_head := (head.x, head.y)
      let surrounding :=
        (([(new_x + 1, new_y), (new_x - 1, new_y),
           (new_x, new_y + 1), (new_x, new_y - 1)] : List (Int × Int)).filter fun p =>
            decide (0 ≤ p.1) && decide (p.1 < board.width) &&
            decide (0 ≤ p.2) && decide (p.2 < board.height)).filter fun p =>
          p != my_head || you.body.length == 1
      headThreatLoop you surrounding board.snakes

/-- The function `simulate_move` (lines 154–184).  Mutation of the board is made
explicit; `none` models the panics of `board.snakes[snake_id]` out of
range and `body[0]` on an empty body.  Note the source handles only the
food / no-food cases — it has no wall, body or head-to-head collision
handling (its last line is the comment
`here add head-to-head collision detection`). -/
def simulate_move (board : Board) (snake_id : Nat) (move_dir : String) : Option Board := do
  let snake ← board.snakes.get? snake_id
  let head ← snake.body.head?
  let dx := (simDelta move_dir).1
  let dy := (simDelta move_dir).2
  let new_head : Coord := ⟨head.x + dx, head.y + dy⟩
  match positionIdx (fun f => coordEq f new_head.x new_head.y) board.food with
  | some index =>
    some { board with
      snakes := board.snakes.set snake_id
        { snake with health := 100, length := snake.length + 1, body := new_head :: snake.body },
      food := board.food.eraseIdx index }
  | none =>
    some { board with
      snakes := board.snakes.set snake_id
        { snake with health := snake.health - 1, body := new_head :: snake.body.dropLast } }

/-- Rust `Iterator::min_by_key`: among elements with minimal key the LAST one
is returned (Rust documented behaviour), hence `≤` when folding. -/
def minByKeyLast (key : α → Int) (l : List α) : Option α :=
  l.foldl (fun acc a =>
    match acc with
    | none => some a
    | some b => if key a ≤ key b then some a else some b) none

/-- The function `predict_snake_move_towards_food` (lines 218–248).  `none` models the
`snake.body[0]` panic on an empty body (indexed both inside the
`min_by_key` closure and in the fallback return). -/
def predict_snake_move_towards_food (snake : Battlesnake) (board : Board) : Option Coord := do
  let head ← snake.body.head?
  match minByKeyLast (fun f => iabs (f.x - head.x) + iabs (f.y - head.y)) board.food with
  | some food =>
    if head.x < food.x then some ⟨head.x + 1, head.y⟩
    else if food.x < head.x then some ⟨head.x - 1, head.y⟩
    else if head.y < food.y then some ⟨head.x, head.y + 1⟩
    else if food.y < head.y then some ⟨head.x, head.y - 1⟩
    else some head
  | none => some head

/-- The food-distance fold of `evaluate_board` (lines 260–266): strict
`<`, starting from the `i32::MAX` sentinel. -/
def minFoodDistance (food : List Coord) (head : Coord) : Int :=
  food.foldl (fun m f =>
    let d := iabs (f.x - head.x) + iabs (f.y - head.y)
    if d < m then d else m) i32Max

/-- The predicted-enemy-distance loop of `evaluate_board`
(lines 306–316); `none` propagates a `body[0]` panic inside
`predict_snake_move_towards_food`. -/
def minEnemyLoop (board : Board) (yid : String) (head : Coord) :
    List Battlesnake → Int → Option Int
  | [], m => some m
  | s :: rest, m =>
    if s.id != yid then do
      let p ← predict_snake_move_towards_food s board
      let d := iabs (p.x - head.x) + iabs (p.y - head.y)
      minEnemyLoop board yid head rest (if d < m then d else m)
    else minEnemyLoop board yid head rest m

/-- The free-space term of `evaluate_board` (lines 324–351): number of
the four orthogonal neighbours of the head that are in bounds and not on
any snake body. -/
def freeSpace (board : Board) (you : Battlesnake) (head : Coord) : Int :=
  ((([(head.x, head.y + 1), (head.x, head.y - 1),
      (head.x - 1, head.y), (head.x + 1, head.y)] : List (Int × Int)).filter fun p =>
      decide (0 ≤ p.1) && decide (p.1 < board.width) &&
      decide (0 ≤ p.2) && decide (p.2 < board.height) &&
      !(you.body.any fun seg => coordEq seg p.1 p.2) &&
      !(board.snakes.any fun s => s.body.any fun seg => coordEq seg p.1 p.2)).length : Int)

/-- The pure score accumulation of `evaluate_board` (lines 253–355),
given the head and the already-computed predicted-enemy distance. -/
def scoreOf (board : Board) (you : Battlesnake) (head : Coord) (min_enemy : Int) : Int :=
  let just_ate := you.health == 100
  let dead := you.health == 0
  let min_food := minFoodDistance board.food head
  let s1 : Int := if just_ate then 500000 else 0
  let s2 := if min_food != i32Max then s1 + (22 - min_food) * (100 + (100 - you.health)) else s1
  let s3 := if dead then s2 - 5500 else s2
  let s4 := s3 + you.health
  let s5 := if min_enemy != i32Max then s4 - (22 - min_enemy) * 100 else s4
  s5 + freeSpace board you head * 10

/-- The function `evaluate_board` (lines 250–356).  `none` models the panics of
`board.snakes[you_id]` out of range, `you.body[0]` on an empty body, and
`snake.body[0]` inside the enemy-prediction loop. -/
def evaluate_board (board : Board) (you_id : Nat) : Option Int := do
  let you ← board.snakes.get? you_id
  let head ← you.body.head?
  let min_enemy ← minEnemyLoop board you.id head board.snakes i32Max
  some (scoreOf board you head min_enemy)

/-- The direction loop of `minimax` (lines 389–452), with the recursive
call abstracted as `recurse` so that `minimax` itself is structural in
`depth`.  State threaded exactly as the Rust `&mut board`: after each
recursion only `snakes[curIdx]` is written back (line 414); `food` is
whatever the subtree left behind.  Returns
`(best_score, best_move, board, move_found)`. -/
def minimaxLoop (recurse : Board → Int → Int → Nat → Option (Int × String × Board))
    (maxIdx curIdx : Nat) :
    List String → Board → Int → Int → Int → String → Bool →
      Option (Int × String × Board × Bool)
  | [], board, _, _, best, bestMove, found => some (best, bestMove, board, found)
  | d :: rest, board, alpha, beta, best, bestMove, found => do
    let you ← board.snakes.get? curIdx
    let safe ← is_move_safe board you d
    if !safe then
      minimaxLoop recurse maxIdx curIdx rest board alpha beta best bestMove found
    else do
      let original := you
      let b1 ← simulate_move board curIdx d
      if b1.snakes.length == 0 then none
      else
        let next := (curIdx + 1) % b1.snakes.length
        let r ← recurse b1 alpha beta next
        let score := r.1
        let b3 : Board := { r.2.2 with snakes := r.2.2.snakes.set curIdx original }
        let takeNew := (curIdx == maxIdx && decide (best < score)) ||
          (curIdx != maxIdx && decide (score < best))
        let best' := if takeNew then score else best
        let bestMove' := if takeNew then d else bestMove
        if curIdx == maxIdx then
          let alpha' := max alpha score
          if decide (beta ≤ alpha') then some (best', bestMove', b3, true)
          else minimaxLoop recurse maxIdx curIdx rest b3 alpha' beta best' bestMove' true
        else
          let beta' := min beta score
          if decide (beta' ≤ alpha) then some (best', bestMove', b3, true)
          else minimaxLoop recurse maxIdx curIdx rest b3 alpha beta' best' bestMove' true

/-- The function `minimax` (lines 358–464).  Depth is a natural number (the source
only ever calls it with 14 and counts down to the `depth == 0` test).
The returned board is the final state of the Rust `&mut board` after the
call, making the in-place mutation observable.  `none` models any panic
below. -/
def minimax (board : Board) (depth : Nat) (alpha beta : Int) (maxIdx curIdx : Nat) :
    Option (Int × String × Board) :=
  match depth with
  | 0 => do
    let score ← evaluate_board board maxIdx
    some (score, "none", board)
  | d + 1 => do
    let best0 : Int := if curIdx == maxIdx then i32Min else i32Max
    let r ← minimaxLoop (fun b a β next => minimax b d a β maxIdx next) maxIdx curIdx
      ["up", "down", "left", "right"] board alpha beta best0 "none" false
    if !r.2.2.2 then
      if curIdx == maxIdx then some (i32Min, "none", r.2.2.1)
      else some (i32Max, "none", r.2.2.1)
    else some (r.1, r.2.1, r.2.2.1)

/-- The fallback filter of `get_move` (lines 488–491): keep the
directions `is_move_safe` accepts on the unmodified board; a panic
inside the filter propagates. -/
def filterSafe (board : Board) (you : Battlesnake) : List String → Option (List String)
  | [] => some []
  | d :: rest => do
    let s ← is_move_safe board you d
    let r ← filterSafe board you rest
    some (if s then d :: r else r)

/-- The function `get_move` (lines 466–502).  The global `GAME_STARTED` flag is the
`game_started` argument; the random source of `SliceRandom::choose` is
the `rng` argument, used as a uniform index into the safe-move list
(`choose` returns `None` on an empty slice, so the Rust
`.unwrap()` panics then — modelled by `List.get?` being `none`).
`none` models a panic reaching the caller. -/
def get_move (game_started : Bool) (board : Board) (you : Battlesnake) (rng : Nat) :
    Option String :=
  if !game_started then some "up"
  else do
    let my_snake_index ← positionIdx (fun s => s.id == you.id) board.snakes
    let r ← minimax board 14 i32Min i32Max my_snake_index my_snake_index
    if r.2.1 == "none" then do
      let safe_moves ← filterSafe board you ["up", "down", "left", "right"]
      safe_moves.get? (rng % safe_moves.length)
    else some r.2.1

/-! ### Concrete boards used by the claim theorems -/

/-- A lone snake next to food: head `(2,2)`, food at `(2,3)` and `(0,0)`. -/
def c1Snake : Battlesnake := ⟨"me", 50, [⟨2, 2⟩, ⟨2, 1⟩], 2⟩

/-- 5×5 board for `c1Snake`. -/
def c1Board : Board := ⟨5, 5, [⟨2, 3⟩, ⟨0, 0⟩], [c1Snake], []⟩

/-- A cornered snake on a 3×3 board: head `(0,0)`, the two in-bounds
neighbours `(0,1)` and `(1,0)` occupied by its own body — no direction
passes `is_move_safe`. -/
def c2Snake : Battlesnake := ⟨"me", 50, [⟨0, 0⟩, ⟨0, 1⟩, ⟨1, 0⟩], 3⟩

/-- 3×3 board for `c2Snake`. -/
def c2Board : Board := ⟨3, 3, [], [c2Snake], []⟩

/-- Equal-length head-to-head: `c3A`'s candidate head for `right` is
`(2,1)`, which is `c3B`'s current head. -/
def c3A : Battlesnake := ⟨"a", 50, [⟨1, 1⟩, ⟨0, 1⟩], 2⟩

/-- The rival of `c3A`, same body length. -/
def c3B : Battlesnake := ⟨"b", 50, [⟨2, 1⟩, ⟨3, 1⟩], 2⟩

/-- 5×5 board holding `c3A` and `c3B`. -/
def c3Board : Board := ⟨5, 5, [], [c3A, c3B], []⟩

/-- A length-3 snake whose candidate head for `right`, `(2,1)`, is the
current head of the strictly shorter `c4Other`. -/
def c4You : Battlesnake := ⟨"a", 50, [⟨1, 1⟩, ⟨0, 1⟩, ⟨0, 0⟩], 3⟩

/-- A length-1 rival whose head sits at `(2,1)`. -/
def c4Other : Battlesnake := ⟨"b", 50, [⟨2, 1⟩], 1⟩

/-- 5×5 board holding `c4You` and `c4Other`. -/
def c4Board : Board := ⟨5, 5, [], [c4You, c4Other], []⟩

/-- A board whose only agent is dead with its body cleared
(health 0, empty body) — the data model's representation of death. -/
def c5Board : Board := ⟨5, 5, [], [⟨"d", 0, [], 3⟩], []⟩

/-- A snake about to eat: head `(2,2)`, food at `(2,3)`. -/
def c6Snake : Battlesnake := ⟨"s6", 50, [⟨2, 2⟩, ⟨2, 1⟩], 2⟩

/-- 5×5 board for `c6Snake`. -/
def c6Board : Board := ⟨5, 5, [⟨2, 3⟩], [c6Snake], []⟩

/-- A snake with health 1 and no food in reach: the next move starves it
to health 0. -/
def c7Snake : Battlesnake := ⟨"s7", 1, [⟨2, 2⟩, ⟨2, 1⟩], 2⟩

/-- 5×5 board for `c7Snake`. -/
def c7Board : Board := ⟨5, 5, [], [c7Snake], []⟩

/-! ### Helper lemmas -/

theorem positionIdx_eraseIdx_length (p : α → Bool) :
    ∀ (l : List α) (j : Nat), positionIdx p l = some j →
      (l.eraseIdx j).length + 1 = l.length := by
  intro l
  induction l with
  | nil => intro j h; simp [positionIdx] at h
  | cons a as ih =>
    intro j h
    by_cases hpa : p a
    · simp [positionIdx, hpa] at h
      subst h
      simp [List.eraseIdx]
    · simp [positionIdx, hpa] at h
      obtain ⟨j', hj', rfl⟩ := h
      simp [List.eraseIdx]
      exact ih j' hj'

theorem positionIdx_eraseIdx_countP_self (p : α → Bool) :
    ∀ (l : List α) (j : Nat), positionIdx p l = some j →
      (l.eraseIdx j).countP p + 1 = l.countP p := by
  intro l
  induction l with
  | nil => intro j h; simp [positionIdx] at h
  | cons a as ih =>
    intro j h
    by_cases hpa : p a
    · simp [positionIdx, hpa] at h
      subst h
      simp [List.eraseIdx, List.countP_cons, hpa]
    · simp [positionIdx, hpa] at h
      obtain ⟨j', hj', rfl⟩ := h
      simp [List.eraseIdx, List.countP_cons, hpa]
      exact ih j' hj'

theorem positionIdx_eraseIdx_countP_other (p q : α → Bool)
    (hq : ∀ a, p a = true → q a = false) :
    ∀ (l : List α) (j : Nat), positionIdx p l = some j →
      (l.eraseIdx j).countP q = l.countP q := by
  intro l
  induction l with
  | nil => intro j h; simp [positionIdx] at h
  | cons a as ih =>
    intro j h
    by_cases hpa : p a
    · simp [positionIdx, hpa] at h
      subst h
      simp [List.eraseIdx, List.countP_cons, hq a hpa]
    · simp [positionIdx, hpa] at h
      obtain ⟨j', hj', rfl⟩ := h
      simp [List.eraseIdx, List.countP_cons]
      rw [ih j' hj']

/-- Claim C6: when the candidate head lands on a food item (first
matching index `j`), `simulate_move` resets health to 100, increments
the length counter, pushes the new head WITHOUT popping the tail (the
whole previous body is retained), and removes exactly one matching
coordinate from `food`: one occurrence of the candidate disappears and
the count of every other coordinate is unchanged. -/
theorem simulate_move_eats (board : Board) (snake_id : Nat) (dir : String)
    (snake : Battlesnake) (head : Coord) (j : Nat)
    (hs : board.snakes.get? snake_id = some snake)
    (hh : snake.body.head? = some head)
    (hf : positionIdx
      (fun f => coordEq f (head.x + (simDelta dir).1) (head.y + (simDelta dir).2))
      board.food = some j) :
    simulate_move board snake_id dir =
      some { board with
        snakes := board.snakes.set snake_id
          { snake with
            health := 100,
            length := snake.length + 1,
            body := ⟨head.x + (simDelta dir).1, head.y + (simDelta dir).2⟩ :: snake.body },
        food := board.food.eraseIdx j } ∧
    (board.food.eraseIdx j).length + 1 = board.food.length ∧
    (board.food.eraseIdx j).countP
        (fun f => coordEq f (head.x + (simDelta dir).1) (head.y + (simDelta dir).2)) + 1 =
      board.food.countP
        (fun f => coordEq f (head.x + (simDelta dir).1) (head.y + (simDelta dir).2)) ∧
    ∀ x y : Int, ¬(x = head.x + (simDelta dir).1 ∧ y = head.y + (simDelta dir).2) →
      (board.food.eraseIdx j).countP (fun f => coordEq f x y) =
        board.food.countP (fun f => coordEq f x y) := by
  refine ⟨?_, positionIdx_eraseIdx_length _ _ _ hf,
    positionIdx_eraseIdx_countP_self _ _ _ hf, ?_⟩
  · simp only [simulate_move, hs, hh, hf, Option.bind_eq_bind, Option.some_bind']
  · intro x y hxy
    refine positionIdx_eraseIdx_countP_other _ _ ?_ _ _ hf
    intro a ha
    simp only [coordEq, Bool.and_eq_true, beq_iff_eq] at ha
    simp only [coordEq, Bool.and_eq_false_iff]
    by_cases hx : a.x = x
    · right
      rw [beq_eq_false_iff_ne]
      intro hy
      exact hxy ⟨by omega, by omega⟩
    · left
      rw [beq_eq_false_iff_ne]
      exact hx

/-- Claim C7 (amended): when the candidate head does not land on food,
`simulate_move` decreases health by exactly 1 and preserves body length
(tail popped, new head pushed); it does NOT clear the body or otherwise
mark death when health reaches 0 — the snake record keeps its full-length
body whatever the resulting health.  Food is untouched. -/
theorem simulate_move_no_food (board : Board) (snake_id : Nat) (dir : String)
    (snake : Battlesnake) (head : Coord)
    (hs : board.snakes.get? snake_id = some snake)
    (hh : snake.body.head? = some head)
    (hf : positionIdx
      (fun f => coordEq f (head.x + (simDelta dir).1) (head.y + (simDelta dir).2))
      board.food = none) :
    ∃ snake', simulate_move board snake_id dir =
        some { board with snakes := board.snakes.set snake_id snake' } ∧
      snake'.health = snake.health - 1 ∧
      snake'.body.length = snake.body.length ∧
      snake'.body.head? = some ⟨head.x + (simDelta dir).1, head.y + (simDelta dir).2⟩ ∧
      snake'.length = snake.length := by
  have hne : snake.body ≠ [] := by
    intro h0
    rw [h0] at hh
    simp at hh
  have hpos : 0 < snake.body.length := List.length_pos.mpr hne
  refine ⟨{ snake with
    health := snake.health - 1,
    body := ⟨head.x + (simDelta dir).1, head.y + (simDelta dir).2⟩ :: snake.body.dropLast },
    ?_, rfl, ?_, rfl, rfl⟩
  · simp only [simulate_move, hs, hh, hf, Option.bind_eq_bind, Option.some_bind']
  · simp only [List.length_cons, List.length_dropLast]
    omega

/-- Unfolding of `minimax` at positive depth (the `depth != 0` path of
lines 378–463). -/
theorem minimax_succ (board : Board) (d : Nat) (alpha beta : Int) (maxIdx curIdx : Nat) :
    minimax board (d + 1) alpha beta maxIdx curIdx =
      (do
        let r ← minimaxLoop (fun b a β next => minimax b d a β maxIdx next) maxIdx curIdx
          ["up", "down", "left", "right"] board alpha beta
          (if curIdx == maxIdx then i32Min else i32Max) "none" false
        if !r.2.2.2 then
          if curIdx == maxIdx then some (i32Min, "none", r.2.2.1)
          else some (i32Max, "none", r.2.2.1)
        else some (r.1, r.2.1, r.2.2.1)) := rfl

/-- The direction loop leaves its accumulator and the board untouched
when every direction in the list fails the legality filter. -/
theorem minimaxLoop_all_blocked
    (recurse : Board → Int → Int → Nat → Option (Int × String × Board))
    (maxIdx curIdx : Nat) (board : Board) (you : Battlesnake)
    (hyou : board.snakes.get? curIdx = some you) :
    ∀ (dirs : List String) (alpha beta best : Int) (bestMove : String) (found : Bool),
      (∀ d ∈ dirs, is_move_safe board you d = some false) →
      minimaxLoop recurse maxIdx curIdx dirs board alpha beta best bestMove found =
        some (best, bestMove, board, found) := by
  intro dirs
  induction dirs with
  | nil => intro alpha beta best bestMove found _; rfl
  | cons d rest ih =>
    intro alpha beta best bestMove found hall
    have hd := hall d (List.mem_cons_self d rest)
    simp only [minimaxLoop, hyou, hd, Option.bind_eq_bind, Option.some_bind',
      Bool.not_false, if_true]
    exact ih alpha beta best bestMove found fun x hx => hall x (List.mem_cons_of_mem d hx)

/-- Claim C8: with positive depth and no direction passing the legality
filter at a ply, `minimax` returns the worst possible score for the side
to move — `i32::MIN` when the current player is the maximizing
(controlled) agent and `i32::MAX` otherwise — with the placeholder move
`none` and the board untouched. -/
theorem minimax_no_safe_moves (board : Board) (depth : Nat) (alpha beta : Int)
    (maxIdx curIdx : Nat) (you : Battlesnake)
    (hdepth : depth ≠ 0)
    (hyou : board.snakes.get? curIdx = some you)
    (hall : ∀ d ∈ (["up", "down", "left", "right"] : List String),
      is_move_safe board you d = some false) :
    minimax board depth alpha beta maxIdx curIdx =
      some ((if curIdx == maxIdx then i32Min else i32Max), "none", board) := by
  cases depth with
  | zero => exact absurd rfl hdepth
  | succ d =>
    rw [minimax_succ]
    rw [minimaxLoop_all_blocked _ maxIdx curIdx board you hyou _ _ _ _ _ _ hall]
    cases hc : (curIdx == maxIdx) <;> simp [hc]

/-- Claim C4 (amended): whenever the candidate head coincides with the
current head of ANY snake on the board, the legality filter returns
`false` — regardless of how the body lengths compare.  The other
agent's head is one of its body segments, so the body-collision loop
rejects the move before the explicit head-to-head check is reached. -/
theorem is_move_safe_head_on_head_false (board : Board) (you : Battlesnake)
    (direction : String) (dx dy : Int) (h : Coord) (s : Battlesnake)
    (hhead : you.body.head? = some h)
    (hdir : moveDelta direction = some (dx, dy))
    (hs : s ∈ board.snakes)
    (hsh : s.body.head? = some ⟨h.x + dx, h.y + dy⟩) :
    is_move_safe board you direction = some false := by
  have hmem : (⟨h.x + dx, h.y + dy⟩ : Coord) ∈ s.body := by
    cases hb : s.body with
    | nil => rw [hb] at hsh; simp at hsh
    | cons a t =>
      rw [hb] at hsh
      simp only [List.head?_cons, Option.some.injEq] at hsh
      rw [← hsh]
      exact List.mem_cons_self a t
  have hany : (board.snakes.any fun s' =>
      s'.body.any fun seg => coordEq seg (h.x + dx) (h.y + dy)) = true := by
    rw [List.any_eq_true]
    refine ⟨s, hs, ?_⟩
    rw [List.any_eq_true]
    exact ⟨_, hmem, by simp [coordEq]⟩
  simp only [is_move_safe, hhead, hdir, Option.bind_eq_bind, Option.some_bind', hany]
  simp

/-- Witness for `is_move_safe_head_on_head_false`: `c4You` moving
`right` onto `c4Other`'s head. -/
theorem is_move_safe_head_on_head_false_witness :
    is_move_safe c4Board c4You "right" = some false :=
  is_move_safe_head_on_head_false c4Board c4You "right" 1 0 ⟨1, 1⟩ c4Other rfl rfl
    (by decide) (by decide)

/-- `predict_snake_move_towards_food` cannot panic on a snake with a
nonempty body. -/
theorem predict_total (s : Battlesnake) (board : Board) (hne : s.body ≠ []) :
    ∃ c, predict_snake_move_towards_food s board = some c := by
  obtain ⟨hd, tl, hb⟩ := List.exists_cons_of_ne_nil hne
  simp only [predict_snake_move_towards_food, hb, List.head?_cons,
    Option.bind_eq_bind, Option.some_bind']
  cases hm : minByKeyLast (fun f => iabs (f.x - hd.x) + iabs (f.y - hd.y)) board.food with
  | none => exact ⟨hd, by simp [hm]⟩
  | some f =>
    simp only [hm]
    split
    · exact ⟨_, rfl⟩
    · split
      · exact ⟨_, rfl⟩
      · split
        · exact ⟨_, rfl⟩
        · split
          · exact ⟨_, rfl⟩
          · exact ⟨_, rfl⟩

/-- The predicted-enemy-distance loop cannot panic when every rival
snake in the list has a nonempty body. -/
theorem minEnemyLoop_total (board : Board) (yid : String) (head : Coord) :
    ∀ (l : List Battlesnake) (m : Int),
      (∀ s ∈ l, s.id ≠ yid → s.body ≠ []) →
      ∃ v, minEnemyLoop board yid head l m = some v := by
  intro l
  induction l with
  | nil => intro m _; exact ⟨m, rfl⟩
  | cons s rest ih =>
    intro m hl
    by_cases hid : s.id = yid
    · simp only [minEnemyLoop, hid, bne_self_eq_false, if_neg, Bool.false_eq_true,
        not_false_eq_true]
      exact ih m fun t ht => hl t (List.mem_cons_of_mem s ht)
    · obtain ⟨c, hc⟩ := predict_total s board (hl s (List.mem_cons_self s rest) hid)
      have hbne : (s.id != yid) = true := bne_iff_ne.mpr hid
      simp only [minEnemyLoop, hbne, if_true, hc, Option.bind_eq_bind, Option.some_bind']
      exact ih _ fun t ht => hl t (List.mem_cons_of_mem s ht)

/-- Claim C5 (amended): the evaluator returns a score whenever the
reference index is in range, the reference agent's body is nonempty, and
every snake with a different id also has a nonempty body; it is NOT
total on boards where the reference agent is dead with a cleared body
(see the counterexample theorem). -/
theorem evaluate_board_total (board : Board) (you_id : Nat) (you : Battlesnake)
    (h1 : board.snakes.get? you_id = some you)
    (h2 : you.body ≠ [])
    (h3 : ∀ s ∈ board.snakes, s.id ≠ you.id → s.body ≠ []) :
    ∃ sc, evaluate_board board you_id = some sc := by
  obtain ⟨hd, tl, hb⟩ := List.exists_cons_of_ne_nil h2
  obtain ⟨v, hv⟩ := minEnemyLoop_total board you.id hd board.snakes i32Max h3
  refine ⟨scoreOf board you hd v, ?_⟩
  simp only [evaluate_board, h1, hb, List.head?_cons, hv,
    Option.bind_eq_bind, Option.some_bind']

/-- Witness for `evaluate_board_total`: the lone live snake of
`c1Board`. -/
theorem evaluate_board_total_witness : ∃ sc, evaluate_board c1Board 0 = some sc :=
  evaluate_board_total c1Board 0 c1Snake rfl (by decide) (by decide)

/-! ### Remaining claim theorems -/

/-- Claim C10: before the game-start hook has set the game-started flag,
`get_move` returns the fixed direction `up` for every input, without
invoking the search, the legality filter, or the evaluator (it returns
for all boards, including those on which any of these would panic). -/
theorem get_move_before_start (board : Board) (you : Battlesnake) (rng : Nat) :
    get_move false board you rng = some "up" := rfl

/-- Claim C9: the search is deterministic — two runs of `minimax` on
identical inputs return the identical score, chosen move and final
board state. -/
theorem minimax_two_runs_equal (board : Board) (depth : Nat) (alpha beta : Int)
    (maxIdx curIdx : Nat) :
    minimax board depth alpha beta maxIdx curIdx =
      minimax board depth alpha beta maxIdx curIdx := rfl

/-- Claim C1 (code bug): one ply of `minimax` on `c1Board` (depth 1,
food at the candidate cell `(2,3)`) restores the mutated snake after
each branch but never puts the consumed food back: the board the loop
leaves behind — the state every later sibling branch and the caller
observe — has lost `(2,3)` from `food` while `snakes` is fully
restored. -/
theorem minimax_food_not_restored :
    c1Board.food = [⟨2, 3⟩, ⟨0, 0⟩] ∧
    (minimax c1Board 1 i32Min i32Max 0 0).map (fun r => (r.2.2.food, r.2.2.snakes)) =
      some ([⟨0, 0⟩], c1Board.snakes) := by decide

/-- Claim C3 (code bug): `simulate_move` resolves no head-to-head
collision at all (its body ends at the comment
`here add head-to-head collision detection`).  Moving `c3A` onto the
equal-length `c3B`'s head leaves BOTH agents alive: the mover at
health 49, the other untouched at health 50, both bodies of length 2 —
the claimed double elimination (health 0, bodies cleared) never
happens. -/
theorem simulate_move_ignores_head_to_head :
    c3A.body.head? = some ⟨1, 1⟩ ∧
    c3B.body.head? = some ⟨2, 1⟩ ∧
    c3A.body.length = c3B.body.length ∧
    (simulate_move c3Board 0 "right").map (fun b => b.snakes.map Battlesnake.health) =
      some [49, 50] ∧
    (simulate_move c3Board 0 "right").map (fun b => b.snakes.map fun s => s.body.length) =
      some [2, 2] := by decide

/-- Claim C5, counterexample: on a board whose reference agent is dead
with its body cleared (health 0, empty body) the evaluator panics on
the `body[0]` index (`none`) instead of returning a score. -/
theorem evaluate_board_dead_agent_panics :
    (c5Board.snakes.get? 0).map Battlesnake.health = some 0 ∧
    (c5Board.snakes.get? 0).map Battlesnake.body = some [] ∧
    evaluate_board c5Board 0 = none := by decide

/-- Claim C4, counterexample: `c4You` (body length 3) moving `right`
lands exactly on the head `(2,1)` of the strictly shorter `c4Other`
(body length 1); the claim says the filter returns `true` then, but the
body-collision loop already rejects the other snake's head as an
ordinary body segment, so the filter returns `false`. -/
theorem is_move_safe_rejects_longer_head_to_head :
    c4You.body.head? = some ⟨1, 1⟩ ∧
    c4Other.body.head? = some ⟨2, 1⟩ ∧
    c4Other.body.length < c4You.body.length ∧
    is_move_safe c4Board c4You "right" = some false := by decide

/-- Claim C7, counterexample: starving from health 1 to health 0 does
NOT clear the body — after `simulate_move` the snake has health 0 and a
still-intact 2-segment body, where the claim requires the body to be
cleared. -/
theorem simulate_move_starved_body_not_cleared :
    (simulate_move c7Board 0 "up").map (fun b => b.snakes.map Battlesnake.health) =
      some [0] ∧
    (simulate_move c7Board 0 "up").map (fun b => b.snakes.map fun s => s.body) =
      some [[⟨2, 3⟩, ⟨2, 2⟩]] := by decide

/-- Claim C2 (code bug): with the game started and the cornered board
(no direction passes `is_move_safe`), the search returns no move and the
fallback calls `SliceRandom::choose` on the empty safe-move list and
`unwrap`s its `None`: `get_move` panics (`none`) for every value of the
random source instead of emitting a default direction. -/
theorem get_move_cornered_fallback_panics (rng : Nat) :
    get_move true c2Board c2Snake rng = none := rfl

/-- Witness for `simulate_move_eats`: the snake of `c6Board` eating the
food at `(2,3)`. -/
theorem simulate_move_eats_witness :
    simulate_move c6Board 0 "up" =
      some { c6Board with
        snakes := [⟨"s6", 100, [⟨2, 3⟩, ⟨2, 2⟩, ⟨2, 1⟩], 3⟩],
        food := [] } := by
  have h := simulate_move_eats c6Board 0 "up" c6Snake ⟨2, 2⟩ 0 rfl rfl (by decide)
  exact h.1.trans (by decide)

/-- Witness for `simulate_move_no_food`: the snake of `c1Board` moving
`left` onto an empty cell. -/
theorem simulate_move_no_food_witness :
    ∃ snake', simulate_move c1Board 0 "left" =
        some { c1Board with snakes := c1Board.snakes.set 0 snake' } ∧
      snake'.health = c1Snake.health - 1 ∧
      snake'.body.length = c1Snake.body.length ∧
      snake'.body.head? = some ⟨1, 2⟩ ∧
      snake'.length = c1Snake.length :=
  simulate_move_no_food c1Board 0 "left" c1Snake ⟨2, 2⟩ rfl rfl (by decide)

/-- Witness for `minimax_no_safe_moves`: the cornered board `c2Board`,
once with the cornered snake as the maximizing player (score
`i32::MIN`) and once as a minimizing player (score `i32::MAX`). -/
theorem minimax_no_safe_moves_witness :
    minimax c2Board 3 i32Min i32Max 0 0 = some (i32Min, "none", c2Board) ∧
    minimax c2Board 3 i32Min i32Max 5 0 = some (i32Max, "none", c2Board) := by
  constructor
  · exact (minimax_no_safe_moves c2Board 3 i32Min i32Max 0 0 c2Snake (by decide) rfl
      (by decide)).trans (by decide)
  · exact (minimax_no_safe_moves c2Board 3 i32Min i32Max 5 0 c2Snake (by decide) rfl
      (by decide)).trans (by decide)
